import Mathlib

/-!
Shallow embedding of src/app.py (fintasticData/swarms): tool packs, the
four agent classes with their execute methods, the CommandCenter master
agent, and the dispatcher contract. A method that can raise a Python
exception is embedded as a function into Option String, where none marks
an uncaught exception (for the agent classes, the only possible one is
the IndexError from a fixed-index access into the tool list). The external
generative-model call is passed in explicitly as a function from the prompt
to an Except value, so that both its success and its failure behaviour can
be quantified over.
-/

/-- Modelled from the spec: the five capability-handle classes imported
from crewai_tools, which is absent from src. The spec data model calls
them named capability handles and its example names the handle of
FileReadTool by its class name, so the name attribute of each handle is
modelled as its class name. -/
inductive Tool
  | FileReadTool
  | APITestTool
  | WebsiteSearchTool
  | CSVAnalysisTool
  | PDFExtractionTool
deriving DecidableEq

/-- The name attribute of a capability handle, modelled as the class name
per the spec example. -/
def Tool.name : Tool → String
  | .FileReadTool => "FileReadTool"
  | .APITestTool => "APITestTool"
  | .WebsiteSearchTool => "WebsiteSearchTool"
  | .CSVAnalysisTool => "CSVAnalysisTool"
  | .PDFExtractionTool => "PDFExtractionTool"

/-- The TOOL_PACKS dict of src/app.py, embedded as an association list
from preset name to tool list. -/
def TOOL_PACKS : List (String × List Tool) :=
  [ ("basic", [.FileReadTool, .CSVAnalysisTool]),
    ("web", [.WebsiteSearchTool, .APITestTool]),
    ("data", [.PDFExtractionTool, .CSVAnalysisTool]),
    ("full", [.FileReadTool, .WebsiteSearchTool, .APITestTool,
              .CSVAnalysisTool, .PDFExtractionTool]) ]

/-- TOOL_PACKS.get(name, []) of src/app.py: dict lookup with the empty
list as default. -/
def TOOL_PACKS.get (k : String) : List Tool :=
  match TOOL_PACKS.find? (fun p => p.1 == k) with
  | some p => p.2
  | none => []

/-- The four agent classes of src/app.py, as role tags. -/
inductive Role
  | DataAnalysisAgent
  | WebScrapingAgent
  | APIIntegrationAgent
  | CodeGenerationAgent
deriving DecidableEq

/-- An agent of the swarm: its class (role), its name and its tools, the
only attributes src/app.py reads. -/
structure SwarmAgent where
  role : Role
  name : String
  tools : List Tool
deriving DecidableEq

/-- DataAnalysisAgent.execute of src/app.py. Python truthiness of the
tool list is nonemptiness; self.tools[0] on a nonempty list is embedded
through get?, whose none value would mark an IndexError. -/
def DataAnalysisAgent.execute (name : String) (tools : List Tool)
    (task : String) : Option String :=
  if !tools.isEmpty then
    (tools.get? 0).map
      (fun t => name ++ " used " ++ t.name ++ " to analyze: " ++ task)
  else
    some (name ++ " completed analysis: " ++ task)

/-- WebScrapingAgent.execute of src/app.py, reading self.tools[1]. -/
def WebScrapingAgent.execute (name : String) (tools : List Tool)
    (task : String) : Option String :=
  if !tools.isEmpty then
    (tools.get? 1).map
      (fun t => name ++ " used " ++ t.name ++ " to scrape: " ++ task)
  else
    some (name ++ " scraped: " ++ task)

/-- APIIntegrationAgent.execute of src/app.py, reading self.tools[2]. -/
def APIIntegrationAgent.execute (name : String) (tools : List Tool)
    (task : String) : Option String :=
  if !tools.isEmpty then
    (tools.get? 2).map
      (fun t => name ++ " used " ++ t.name ++ " to integrate: " ++ task)
  else
    some (name ++ " integrated: " ++ task)

/-- CodeGenerationAgent.execute of src/app.py. The external call
gemini_model.generate_content, with its text attribute, is the argument
gemini: Except.ok is a successful response text and Except.error the
string of a raised exception, which the except branch formats. The
result is always some: this method never re-raises. -/
def CodeGenerationAgent.execute (name : String)
    (gemini : String → Except String String) (task : String) :
    Option String :=
  match gemini ("Generate Python code for: " ++ task) with
  | .ok r => some (name ++ " generated code:\n```python\n" ++ r ++ "\n```")
  | .error e => some (name ++ " failed to generate code: " ++ e)

/-- Dispatch of execute over the agent classes of src/app.py. -/
def SwarmAgent.execute (gemini : String → Except String String)
    (a : SwarmAgent) (task : String) : Option String :=
  match a.role with
  | .DataAnalysisAgent => DataAnalysisAgent.execute a.name a.tools task
  | .WebScrapingAgent => WebScrapingAgent.execute a.name a.tools task
  | .APIIntegrationAgent => APIIntegrationAgent.execute a.name a.tools task
  | .CodeGenerationAgent => CodeGenerationAgent.execute a.name gemini task

/-- State-passing form of execute: the method bodies in src/app.py assign
no attribute, so the agent comes back as it went in. -/
def SwarmAgent.executeS (gemini : String → Except String String)
    (a : SwarmAgent) (task : String) : Option String × SwarmAgent :=
  (a.execute gemini task, a)

/-- The mutable state of the CommandCenter master agent of src/app.py:
the two attributes its constructor sets. -/
structure CommandCenter where
  swarm : List SwarmAgent
  tool_pack : List Tool
deriving DecidableEq

/-- CommandCenter.__init__ of src/app.py: both attributes start empty. -/
def CommandCenter.init : CommandCenter := ⟨[], []⟩

/-- CommandCenter.setup_swarm of src/app.py: reassigns self.swarm to the
four freshly constructed agents and touches nothing else.
CodeGenerationAgent is constructed without a tools argument; the library
default of holding no tools is modelled as the empty list. -/
def CommandCenter.setup_swarm (cc : CommandCenter)
    (tool_pack_name : String) : CommandCenter :=
  { cc with swarm :=
      [ ⟨.DataAnalysisAgent, "DataAgent", TOOL_PACKS.get tool_pack_name⟩,
        ⟨.WebScrapingAgent, "ScraperAgent", TOOL_PACKS.get tool_pack_name⟩,
        ⟨.APIIntegrationAgent, "APIAgent", TOOL_PACKS.get tool_pack_name⟩,
        ⟨.CodeGenerationAgent, "CodeGenAgent", []⟩ ] }

/-- Modelled from the spec: run_workflow is delegated to the orchestration
library and absent from src; the spec contract says it accepts a TaskMap,
invokes the corresponding agent execute operation for each present key,
and returns a ResultMap with the same keys. TaskMap and ResultMap are
association lists; the corresponding agent is found by name in the swarm. -/
def run_workflow (gemini : String → Except String String)
    (swarm : List SwarmAgent) (tasks : List (String × String)) :
    List (String × Option String) :=
  tasks.map (fun kt =>
    (kt.1, (swarm.find? (fun a => a.name == kt.1)).bind
      (fun a => a.execute gemini kt.2)))

/-- Lookup of a preset name that is none of the four known keys yields
the empty default list. -/
theorem TOOL_PACKS.get_eq_nil_of_unknown (p : String) (h1 : p ≠ "basic")
    (h2 : p ≠ "web") (h3 : p ≠ "data") (h4 : p ≠ "full") :
    TOOL_PACKS.get p = [] := by
  have b1 : (("basic" : String) == p) = false :=
    beq_eq_false_iff_ne.mpr (Ne.symm h1)
  have b2 : (("web" : String) == p) = false :=
    beq_eq_false_iff_ne.mpr (Ne.symm h2)
  have b3 : (("data" : String) == p) = false :=
    beq_eq_false_iff_ne.mpr (Ne.symm h3)
  have b4 : (("full" : String) == p) = false :=
    beq_eq_false_iff_ne.mpr (Ne.symm h4)
  simp [TOOL_PACKS.get, TOOL_PACKS, List.find?, b1, b2, b3, b4]

/-- Claim C1, refuted by the code: with the known preset basic, whose
pack holds only two tools, APIIntegrationAgent.execute reads
self.tools[2] out of bounds and raises IndexError (embedded as none)
instead of returning a string, so the claimed in-bounds indexing fails
on a reachable input. -/
theorem apiIntegration_basic_execute_raises :
    (TOOL_PACKS.get "basic").length = 2 ∧
    SwarmAgent.execute (fun _ => Except.error "")
      ⟨Role.APIIntegrationAgent, "APIAgent", TOOL_PACKS.get "basic"⟩
      "Fetch weather data" = none := by
  exact ⟨rfl, rfl⟩

/-- Claim C2: for every preset name outside the known set, setup_swarm
succeeds and every agent it constructs holds an empty tools list. -/
theorem setup_swarm_unknown_preset_empty_tools (p : String)
    (h1 : p ≠ "basic") (h2 : p ≠ "web") (h3 : p ≠ "data") (h4 : p ≠ "full")
    (cc : CommandCenter) :
    (cc.setup_swarm p).swarm.map SwarmAgent.tools = [[], [], [], []] := by
  simp [CommandCenter.setup_swarm,
    TOOL_PACKS.get_eq_nil_of_unknown p h1 h2 h3 h4]

/-- Witness for claim C2 at the concrete unknown preset name bogus. -/
theorem setup_swarm_unknown_preset_empty_tools_witness :
    (CommandCenter.init.setup_swarm "bogus").swarm.map SwarmAgent.tools
      = [[], [], [], []] :=
  setup_swarm_unknown_preset_empty_tools "bogus" (by decide) (by decide)
    (by decide) (by decide) CommandCenter.init

/-- Claim C4: with preset basic, the first agent of the swarm is
DataAgent, its first capability handle is FileReadTool, and executing
the example task returns exactly the example string, for every state of
the external model. -/
theorem basic_dataAgent_fileReadTool_example
    (g : String → Except String String) :
    ((CommandCenter.init.setup_swarm "basic").swarm.get? 0).map
        SwarmAgent.name = some "DataAgent" ∧
    ((CommandCenter.init.setup_swarm "basic").swarm.get? 0).map
        (fun a => a.tools.get? 0) = some (some Tool.FileReadTool) ∧
    ((CommandCenter.init.setup_swarm "basic").swarm.get? 0).map
        (fun a => a.execute g "Analyze sales data")
      = some (some "DataAgent used FileReadTool to analyze: Analyze sales data") :=
  ⟨rfl, rfl, rfl⟩

/-- Claim C5, counterexample: the fourth agent built for preset basic,
CodeGenAgent, is not bound to the capability handles of the preset, so
not each agent is pre-bound to them. -/
theorem setup_swarm_codeGen_not_bound_to_pack :
    ∃ a ∈ (CommandCenter.init.setup_swarm "basic").swarm,
      a.tools ≠ TOOL_PACKS.get "basic" := by decide

/-- Claim C5 as amended: for every preset name, setup_swarm produces the
fixed ordered list DataAgent, ScraperAgent, APIAgent, CodeGenAgent with
their fixed roles; the first three are pre-bound to the capability
handles of the preset, while CodeGenAgent holds none. -/
theorem setup_swarm_fixed_list_amended (cc : CommandCenter) (p : String) :
    (cc.setup_swarm p).swarm.map (fun a => (a.name, a.role))
      = [("DataAgent", Role.DataAnalysisAgent),
         ("ScraperAgent", Role.WebScrapingAgent),
         ("APIAgent", Role.APIIntegrationAgent),
         ("CodeGenAgent", Role.CodeGenerationAgent)] ∧
    (cc.setup_swarm p).swarm.map SwarmAgent.tools
      = [TOOL_PACKS.get p, TOOL_PACKS.get p, TOOL_PACKS.get p, []] :=
  ⟨rfl, rfl⟩

/-- Claim C3: if the external generative-model call fails with any
error, CodeGenerationAgent.execute does not re-raise and returns a
string that contains the error text after the fixed failure message. -/
theorem codeGeneration_execute_failure_returns_message
    (name task e : String) (g : String → Except String String)
    (h : g ("Generate Python code for: " ++ task) = Except.error e) :
    CodeGenerationAgent.execute name g task
      = some (name ++ " failed to generate code: " ++ e) := by
  simp [CodeGenerationAgent.execute, h]

/-- Witness for claim C3 at a concrete simulated external failure. -/
theorem codeGeneration_execute_failure_returns_message_witness :
    CodeGenerationAgent.execute "CodeGenAgent"
        (fun _ => Except.error "quota exceeded") "factorial"
      = some ("CodeGenAgent" ++ " failed to generate code: "
          ++ "quota exceeded") :=
  codeGeneration_execute_failure_returns_message "CodeGenAgent"
    "factorial" "quota exceeded" (fun _ => Except.error "quota exceeded")
    rfl

/-- Claim C6: for every non-code-generation agent, execute is a pure
deterministic function of name, tools and task: two agents of the same
non-code-generation role agreeing on name and tools give equal results
on equal tasks, under any two states of the external model. -/
theorem execute_deterministic_pure (a b : SwarmAgent)
    (g1 g2 : String → Except String String) (task : String)
    (hrole : a.role = b.role) (hncg : a.role ≠ Role.CodeGenerationAgent)
    (hname : a.name = b.name) (htools : a.tools = b.tools) :
    a.execute g1 task = b.execute g2 task := by
  rcases a with ⟨ra, na, ta⟩
  rcases b with ⟨rb, nb, tb⟩
  dsimp only at hrole hname htools hncg
  subst hrole; subst hname; subst htools
  cases ra
  case CodeGenerationAgent => exact absurd rfl hncg
  all_goals rfl

/-- Witness for claim C6: the same data agent run against two different
external-model states gives the same result. -/
theorem execute_deterministic_pure_witness :
    SwarmAgent.execute (fun _ => Except.ok "x")
        ⟨Role.DataAnalysisAgent, "DataAgent", TOOL_PACKS.get "basic"⟩ "t"
      = SwarmAgent.execute (fun _ => Except.error "y")
        ⟨Role.DataAnalysisAgent, "DataAgent", TOOL_PACKS.get "basic"⟩ "t" :=
  execute_deterministic_pure
    ⟨Role.DataAnalysisAgent, "DataAgent", TOOL_PACKS.get "basic"⟩
    ⟨Role.DataAnalysisAgent, "DataAgent", TOOL_PACKS.get "basic"⟩
    (fun _ => Except.ok "x") (fun _ => Except.error "y") "t"
    rfl (by decide) rfl rfl

/-- Claim C9: execute mutates nothing: in state-passing form the agent
comes back with its name and tools unchanged, for every variant, task
and state of the external model. -/
theorem executeS_preserves_agent (g : String → Except String String)
    (a : SwarmAgent) (task : String) :
    (a.executeS g task).2.name = a.name ∧
    (a.executeS g task).2.tools = a.tools ∧
    (a.executeS g task).2 = a :=
  ⟨rfl, rfl, rfl⟩

/-- Any sequence of setup_swarm calls leaves tool_pack where it
started. -/
theorem foldl_setup_swarm_tool_pack (ps : List String)
    (cc : CommandCenter) :
    (ps.foldl CommandCenter.setup_swarm cc).tool_pack = cc.tool_pack := by
  induction ps generalizing cc with
  | nil => rfl
  | cons q qs ih => exact ih (cc.setup_swarm q)

/-- Claim C10: setup_swarm rewrites only the swarm field and the new
swarm depends only on the preset name; tool_pack keeps its construction
value, the empty list, and after any sequence of earlier setup_swarm
calls a further call yields the same state as on a freshly constructed
CommandCenter. -/
theorem setup_swarm_frame_and_state_independence :
    (∀ cc p, (CommandCenter.setup_swarm cc p).tool_pack = cc.tool_pack ∧
      (CommandCenter.setup_swarm cc p).swarm
        = (CommandCenter.init.setup_swarm p).swarm) ∧
    CommandCenter.init.tool_pack = [] ∧
    ∀ (ps : List String) (p : String),
      (ps.foldl CommandCenter.setup_swarm CommandCenter.init).setup_swarm p
        = CommandCenter.init.setup_swarm p := by
  refine ⟨fun cc p => ⟨rfl, rfl⟩, rfl, fun ps p => ?_⟩
  have h := foldl_setup_swarm_tool_pack ps CommandCenter.init
  simpa [CommandCenter.setup_swarm, CommandCenter.init,
    CommandCenter.mk.injEq] using h

/-- Claim C8: the dispatcher returns a ResultMap with exactly the keys
of the TaskMap, in order, and looking up any key bound in the TaskMap
yields the result of the corresponding agent executing the task bound
to that key. -/
theorem run_workflow_preserves_keys (g : String → Except String String)
    (swarm : List SwarmAgent) (tasks : List (String × String)) :
    (run_workflow g swarm tasks).map Prod.fst = tasks.map Prod.fst ∧
    ∀ k t, tasks.lookup k = some t →
      (run_workflow g swarm tasks).lookup k
        = some ((swarm.find? (fun a => a.name == k)).bind
            (fun a => a.execute g t)) := by
  constructor
  · simp [run_workflow]
  · induction tasks with
    | nil => intro k t h; simp [List.lookup] at h
    | cons kt rest ih =>
      intro k t h
      obtain ⟨k0, t0⟩ := kt
      cases hk : k == k0 with
      | true =>
        have hkk : k = k0 := eq_of_beq hk
        subst hkk
        have ht : t0 = t := by simpa [List.lookup, hk] using h
        subst ht
        simp [run_workflow, List.lookup, hk]
      | false =>
        have h2 : rest.lookup k = some t := by
          simpa [List.lookup, hk] using h
        have := ih k t h2
        simpa [run_workflow, List.lookup, hk] using this

/-- Witness for claim C8 on a concrete one-entry TaskMap. -/
theorem run_workflow_preserves_keys_witness :
    (run_workflow (fun _ => Except.error "down")
        (CommandCenter.init.setup_swarm "basic").swarm
        [("DataAgent", "Analyze sales data")]).lookup "DataAgent"
      = some (((CommandCenter.init.setup_swarm "basic").swarm.find?
            (fun a => a.name == "DataAgent")).bind
          (fun a => a.execute (fun _ => Except.error "down")
            "Analyze sales data")) :=
  (run_workflow_preserves_keys (fun _ => Except.error "down")
      (CommandCenter.init.setup_swarm "basic").swarm
      [("DataAgent", "Analyze sales data")]).2
    "DataAgent" "Analyze sales data" rfl

/-- Claim C7, refuted by the code: the APIAgent built for the known
preset web holds a non-empty capability list of two handles, yet its
execute returns no result string at all: self.tools[2] is out of bounds
and raises IndexError (embedded as none). -/
theorem apiIntegration_web_pack_raises :
    TOOL_PACKS.get "web" ≠ [] ∧
    SwarmAgent.execute (fun _ => Except.error "")
      ⟨Role.APIIntegrationAgent, "APIAgent", TOOL_PACKS.get "web"⟩
      "Scrape competitor prices" = none := by
  exact ⟨by decide, rfl⟩
